import Mathlib

/-
  Shallow embedding of the core of the fin ray tracer:
  shading.cpp (src/unnamed/part_000), src/light.cpp and src/recursive.cpp.

  Modelling conventions:
  - glm floats are idealized as real numbers; glm vec3 is a triple of reals.
  - glm::normalize uses the exact real square root.
  - External collaborators (the BVH intersection capability, the environment
    map, texture sampling, the pseudorandom sampler) are fields of RenderState,
    following the collaborator contracts in the specification: the BVH is a
    function from a ray to an optional hit (hit distance plus HitInfo), the
    sampler is a stream of draws indexed by a draw counter that is threaded
    explicitly through every function that consumes draws (the C++ code
    mutates the sampler in place).
  - drawRay debug output is a side-effect-free no-op and is omitted.
  - Ray construction without an explicit t keeps the framework default FLT_MAX.
-/

set_option maxHeartbeats 1000000

noncomputable section

namespace Tracer

/-- Triple of reals standing for glm vec3. -/
abbrev Vec3 : Type := ℝ × ℝ × ℝ

/-- Pair of reals standing for glm vec2. -/
abbrev Vec2 : Type := ℝ × ℝ

/-- glm dot product on vec3. -/
def dot3 (a b : Vec3) : ℝ := a.1 * b.1 + a.2.1 * b.2.1 + a.2.2 * b.2.2

/-- Scalar times vec3, componentwise. -/
def smul3 (c : ℝ) (v : Vec3) : Vec3 := (c * v.1, c * v.2.1, c * v.2.2)

/-- vec3 plus scalar, componentwise (glm broadcasts the scalar). -/
def sadd3 (v : Vec3) (c : ℝ) : Vec3 := (v.1 + c, v.2.1 + c, v.2.2 + c)

/-- vec3 divided by a scalar, componentwise. -/
def sdiv3 (v : Vec3) (c : ℝ) : Vec3 := (v.1 / c, v.2.1 / c, v.2.2 / c)

/-- glm length of a vec3. -/
def length3 (v : Vec3) : ℝ := Real.sqrt (dot3 v v)

/-- glm normalize: the vector divided by its length. -/
def normalize3 (v : Vec3) : Vec3 := sdiv3 v (length3 v)

/-- glm mix (linear interpolation) on vec3. -/
def mix3 (x y : Vec3) (a : ℝ) : Vec3 := x + smul3 a (y - x)

/-- glm reflect: i - 2 * dot(n, i) * n. -/
def reflect3 (i n : Vec3) : Vec3 := i - smul3 (2 * dot3 n i) n

/-- The largest finite float, the framework default for Ray.t. -/
def fltMax : ℝ := 2 ^ 128 - 2 ^ 104

/-- A ray: origin, direction (not necessarily normalized) and hit distance t. -/
structure Ray where
  origin : Vec3
  direction : Vec3
  t : ℝ := fltMax

/-- A texture together with its two external sampling collaborators
(sampleTextureNearest and sampleTextureBilinear applied to this texture). -/
structure Texture where
  nearest : Vec2 → Vec3
  bilinear : Vec2 → Vec3

/-- Material data as consumed by the core. -/
structure Material where
  kd : Vec3
  ks : Vec3
  shininess : ℝ
  transparency : ℝ
  kdTexture : Option Texture := none

/-- Intersection information produced by the BVH collaborator. -/
structure HitInfo where
  normal : Vec3
  texCoord : Vec2
  material : Material

/-- The shading model selector. -/
inductive ShadingModel
  | lambertian
  | phong
  | blinnPhong
  | linearGradient

/-- One component of a linear gradient: a t value and a color. -/
structure GradientComponent where
  t : ℝ
  color : Vec3

/-- A linear gradient: an ordered list of components. -/
structure LinearGradient where
  components : List GradientComponent

/-- A point light. -/
structure PointLight where
  position : Vec3
  color : Vec3

/-- A segment light. -/
structure SegmentLight where
  endpoint0 : Vec3
  endpoint1 : Vec3
  color0 : Vec3
  color1 : Vec3

/-- A parallelogram light. -/
structure ParallelogramLight where
  v0 : Vec3
  edge01 : Vec3
  edge02 : Vec3
  color0 : Vec3
  color1 : Vec3
  color2 : Vec3
  color3 : Vec3

/-- The tagged union of light variants. -/
inductive Light
  | point (l : PointLight)
  | segment (l : SegmentLight)
  | parallelogram (l : ParallelogramLight)

/-- Extra feature flags (only the glossy-reflection toggle is relevant). -/
structure ExtraFeatures where
  enableGlossyReflection : Bool

/-- The feature configuration bundle. -/
structure Features where
  enableShading : Bool
  enableShadows : Bool
  enableReflections : Bool
  enableTransparency : Bool
  enableTextureMapping : Bool
  enableBilinearTextureFiltering : Bool
  shadingModel : ShadingModel
  numShadowSamples : ℕ
  extra : ExtraFeatures

/-- The scene: its list of lights (geometry lives behind the BVH oracle). -/
structure Scene where
  lights : List Light

/-- The render state: scene, feature configuration and the external
collaborators (BVH intersection, environment map, sampler stream, and the
perturbation used by the glossy variant, whose source is not part of the
core files). The sampler is a stream: draw number n yields sampler n. -/
structure RenderState where
  scene : Scene
  features : Features
  intersect : Ray → Option (ℝ × HitInfo)
  env : Ray → Vec3
  sampler : ℕ → ℝ
  glossyPerturb : Ray → Ray

/-! ## Shading engine (shading.cpp) -/

/-- sampleMaterialKd: texture-vs-flat diffuse resolution per the
texture-mapping and bilinear-filtering flags. -/
def sampleMaterialKd (state : RenderState) (hitInfo : HitInfo) : Vec3 :=
  if state.features.enableTextureMapping = true then
    match hitInfo.material.kdTexture with
    | some tex =>
        if state.features.enableBilinearTextureFiltering = true then
          tex.bilinear hitInfo.texCoord
        else
          tex.nearest hitInfo.texCoord
    | none => hitInfo.material.kd
  else hitInfo.material.kd

/-- computeLambertianModel from shading.cpp. -/
def computeLambertianModel (state : RenderState) (cameraDirection lightDirection lightColor : Vec3) (hitInfo : HitInfo) : Vec3 :=
  let N := normalize3 hitInfo.normal
  let L := normalize3 lightDirection
  let lambertian := max 0 (dot3 N L)
  let kd := sampleMaterialKd state hitInfo
  smul3 lambertian (kd * lightColor)

/-- computePhongModel from shading.cpp: R = reflect(-L, N), the diffuse
coefficient is kd scaled by NdotL, the diffuse term multiplies by NdotL again,
and the specular term has no shininess exponent. -/
def computePhongModel (state : RenderState) (cameraDirection lightDirection lightColor : Vec3) (hitInfo : HitInfo) : Vec3 :=
  let N := normalize3 hitInfo.normal
  let L := normalize3 lightDirection
  let V := normalize3 cameraDirection
  let R := reflect3 (-L) N
  let NdotL := max (dot3 N L) 0
  let kd := smul3 NdotL (sampleMaterialKd state hitInfo)
  let diffuse := smul3 NdotL (kd * lightColor)
  let RdotV := max (dot3 R V) 0
  let specular := smul3 RdotV (hitInfo.material.ks * lightColor)
  diffuse + specular

/-- computeBlinnPhongModel from shading.cpp: H = normalize(L + V), specular
uses pow(max(0, dot(N, H)), shininess); glm pow on floats is modelled by the
real power function (so a zero base with zero exponent yields 1, as powf
does). -/
def computeBlinnPhongModel (state : RenderState) (cameraDirection lightDirection lightColor : Vec3) (hitInfo : HitInfo) : Vec3 :=
  let N := normalize3 hitInfo.normal
  let L := normalize3 lightDirection
  let V := normalize3 cameraDirection
  let H := normalize3 (L + V)
  let NdotL := max (dot3 N L) 0
  let kd := sampleMaterialKd state hitInfo
  let diffuse := smul3 NdotL (kd * lightColor)
  let NdotH := (max 0 (dot3 N H)) ^ hitInfo.material.shininess
  let specular := smul3 NdotH (hitInfo.material.ks * lightColor)
  diffuse + specular

/-- The scan loop of LinearGradient::sample: walk consecutive component pairs
and interpolate inside the first interval that brackets ti; the unreachable
fallthrough (asserted false in the source) yields the zero vector. -/
def gradientScan : List GradientComponent → ℝ → Vec3
  | a :: b :: rest, ti =>
      if a.t ≤ ti ∧ ti ≤ b.t then
        mix3 a.color b.color ((ti - a.t) / (b.t - a.t))
      else
        gradientScan (b :: rest) ti
  | _, _ => 0

/-- LinearGradient::sample from shading.cpp: clamp to the first component at
or below its t, clamp to the last component at or above its t, otherwise scan
for the bracketing pair. An empty component list (which the source rejects by
assertion) yields the zero vector. -/
def LinearGradient.sample (g : LinearGradient) (ti : ℝ) : Vec3 :=
  match g.components with
  | [] => 0
  | c :: cs =>
      if ti ≤ c.t then c.color
      else
        if ((c :: cs).getLast (List.cons_ne_nil c cs)).t ≤ ti then
          ((c :: cs).getLast (List.cons_ne_nil c cs)).color
        else gradientScan (c :: cs) ti

/-- computeLinearGradientModel from shading.cpp. -/
def computeLinearGradientModel (state : RenderState) (cameraDirection lightDirection lightColor : Vec3) (hitInfo : HitInfo) (gradient : LinearGradient) : Vec3 :=
  let cosTheta := dot3 (normalize3 lightDirection) (normalize3 hitInfo.normal)
  let clamped := min (max cosTheta (-1)) 1
  gradient.sample clamped * lightColor

/-- The hardcoded static gradient of computeShading. -/
def shadingGradient : LinearGradient :=
  { components :=
      [ { t := 0.1, color := (215 / 256, 210 / 256, 203 / 256) }
      , { t := 0.22, color := (250 / 256, 250 / 256, 240 / 256) }
      , { t := 0.5, color := (145 / 256, 170 / 256, 175 / 256) }
      , { t := 0.78, color := (255 / 256, 250 / 256, 205 / 256) }
      , { t := 0.9, color := (170 / 256, 170 / 256, 170 / 256) } ] }

/-- computeShading from shading.cpp: dispatch on the configured model, or
bypass all models when shading is disabled. -/
def computeShading (state : RenderState) (cameraDirection lightDirection lightColor : Vec3) (hitInfo : HitInfo) : Vec3 :=
  if state.features.enableShading = true then
    match state.features.shadingModel with
    | ShadingModel.lambertian =>
        computeLambertianModel state cameraDirection lightDirection lightColor hitInfo
    | ShadingModel.phong =>
        computePhongModel state cameraDirection lightDirection lightColor hitInfo
    | ShadingModel.blinnPhong =>
        computeBlinnPhongModel state cameraDirection lightDirection lightColor hitInfo
    | ShadingModel.linearGradient =>
        computeLinearGradientModel state cameraDirection lightDirection lightColor hitInfo shadingGradient
  else lightColor * sampleMaterialKd state hitInfo

/-! ## Light sampling and visibility (light.cpp) -/

/-- sampleSegmentLight from light.cpp: returns (position, color). -/
def sampleSegmentLight (sample : ℝ) (light : SegmentLight) : Vec3 × Vec3 :=
  (light.endpoint0 + smul3 sample (light.endpoint1 - light.endpoint0),
   mix3 light.color0 light.color1 sample)

/-- sampleParallelogramLight from light.cpp: returns (position, color). -/
def sampleParallelogramLight (sample : Vec2) (light : ParallelogramLight) : Vec3 × Vec3 :=
  (light.v0 + (smul3 sample.1 light.edge01 + smul3 sample.2 light.edge02),
   smul3 ((1 - sample.1) * (1 - sample.2)) light.color0 +
     smul3 (sample.1 * (1 - sample.2)) light.color1 +
     smul3 ((1 - sample.1) * sample.2) light.color2 +
     smul3 (sample.1 * sample.2) light.color3)

/-- The shadow ray built inside visibilityOfLightSampleBinary: origin is the
incident intersection point offset by the flat bias 0.0001, direction points
to the light sample. -/
def binaryShadowRay (ray : Ray) (lightPosition : Vec3) : Ray :=
  let o := sadd3 (ray.origin + smul3 ray.t ray.direction) 0.0001
  { origin := o, direction := normalize3 (lightPosition - o) }

/-- visibilityOfLightSampleBinary from light.cpp: cast the shadow ray against
the BVH; occluded means not visible. The feature flags are never consulted. -/
def visibilityOfLightSampleBinary (state : RenderState) (lightPosition lightColor : Vec3) (ray : Ray) (hitInfo : HitInfo) : Bool :=
  match state.intersect (binaryShadowRay ray lightPosition) with
  | some _ => false
  | none => true

/-- The shadow ray built inside visibilityOfLightSampleTransparency (bias
0.001 instead of 0.0001). -/
def transparencyShadowRay (ray : Ray) (lightPosition : Vec3) : Ray :=
  let o := sadd3 (ray.origin + smul3 ray.t ray.direction) 0.001
  { origin := o, direction := normalize3 (lightPosition - o) }

/-- visibilityOfLightSampleTransparency from light.cpp: when the shadow ray is
occluded, attenuate by the receiving material: lightColor * kd *
(1 - transparency); otherwise pass the light color unchanged. The unused
locals of the source (intersectionPoint, lightDirection) are omitted. -/
def visibilityOfLightSampleTransparency (state : RenderState) (lightPosition lightColor : Vec3) (ray : Ray) (hitInfo : HitInfo) : Vec3 :=
  match state.intersect (transparencyShadowRay ray lightPosition) with
  | some _ => smul3 (1 - hitInfo.material.transparency) (lightColor * hitInfo.material.kd)
  | none => lightColor

/-- visibilityOfLightSample from light.cpp: dispatch on the shadow and
transparency flags. -/
def visibilityOfLightSample (state : RenderState) (lightPosition lightColor : Vec3) (ray : Ray) (hitInfo : HitInfo) : Vec3 :=
  if !state.features.enableShadows then
    lightColor
  else if !state.features.enableTransparency then
    (if visibilityOfLightSampleBinary state lightPosition lightColor ray hitInfo then lightColor else 0)
  else
    visibilityOfLightSampleTransparency state lightPosition lightColor ray hitInfo

/-- The local shadow ray built inside computeContributionPointLight (flat bias
0.001 added to the already biased intersection point); its t keeps the
framework default. -/
def pointLightShadowRay (ray : Ray) (light : PointLight) : Ray :=
  let intersectionPoint := sadd3 (ray.origin + smul3 ray.t ray.direction) 0.0001
  { origin := sadd3 intersectionPoint 0.001
    direction := normalize3 (light.position - sadd3 intersectionPoint 0.001) }

/-- computeContributionPointLight from light.cpp: one binary visibility test
on the incident ray; when visible and the material is transparent, blend the
shading with the transparent-shadow color, when visible and opaque return the
shading, and when occluded return zero. -/
def computeContributionPointLight (state : RenderState) (light : PointLight) (ray : Ray) (hitInfo : HitInfo) : Vec3 :=
  let intersectionPoint := sadd3 (ray.origin + smul3 ray.t ray.direction) 0.0001
  let lightDirection := normalize3 (light.position - intersectionPoint)
  let isLightVisible := visibilityOfLightSampleBinary state light.position light.color ray hitInfo
  if isLightVisible then
    if hitInfo.material.transparency < 1 then
      let transparentShadowColor :=
        visibilityOfLightSampleTransparency state light.position light.color (pointLightShadowRay ray light) hitInfo
      let shadingResult := computeShading state (-ray.direction) lightDirection light.color hitInfo
      smul3 (1 - hitInfo.material.transparency) shadingResult + transparentShadowColor
    else
      computeShading state (-ray.direction) lightDirection light.color hitInfo
  else 0

/-- One iteration of the computeContributionSegmentLight loop, at draw index
k: draw next_1d, sample the light, build the shadow ray (origin biased along
the normal), test visibility, and return the shading when visible (the empty
else branch of the source contributes zero). -/
def segmentSampleTerm (state : RenderState) (light : SegmentLight) (ray : Ray) (hitInfo : HitInfo) (k : ℕ) : Vec3 :=
  let sampled := sampleSegmentLight (state.sampler k) light
  let lightPosition := sampled.1
  let lightColor := sampled.2
  let intersectionPoint := ray.origin + smul3 ray.t ray.direction
  let lightDirection := normalize3 (lightPosition - intersectionPoint)
  let shadowRay : Ray := { origin := intersectionPoint + smul3 0.001 hitInfo.normal
                           direction := lightDirection }
  if visibilityOfLightSampleBinary state lightPosition lightColor shadowRay hitInfo then
    computeShading state (-ray.direction) lightDirection lightColor hitInfo
  else 0

/-- The accumulation loop of computeContributionSegmentLight: n iterations
remaining, current draw index, accumulator. -/
def segmentLightLoop (state : RenderState) (light : SegmentLight) (ray : Ray) (hitInfo : HitInfo) : ℕ → ℕ → Vec3 → Vec3 × ℕ
  | 0, sIdx, acc => (acc, sIdx)
  | n + 1, sIdx, acc =>
      segmentLightLoop state light ray hitInfo n (sIdx + 1)
        (acc + segmentSampleTerm state light ray hitInfo sIdx)

/-- computeContributionSegmentLight from light.cpp: accumulate numSamples
sampled contributions, then normalize by numSamples when it is positive. -/
def computeContributionSegmentLight (state : RenderState) (light : SegmentLight) (ray : Ray) (hitInfo : HitInfo) (numSamples : ℕ) (sIdx : ℕ) : Vec3 × ℕ :=
  let res := segmentLightLoop state light ray hitInfo numSamples sIdx 0
  (if 0 < numSamples then sdiv3 res.1 numSamples else res.1, res.2)

/-- One iteration of the computeContributionParallelogramLight loop, at draw
index k: draw next_2d (two consecutive stream entries), sample the light,
build the shadow ray from the flat-biased intersection point, test
visibility, and return the shading when visible. -/
def parallelogramSampleTerm (state : RenderState) (light : ParallelogramLight) (ray : Ray) (hitInfo : HitInfo) (k : ℕ) : Vec3 :=
  let sampled := sampleParallelogramLight (state.sampler k, state.sampler (k + 1)) light
  let lightPosition := sampled.1
  let lightColor := sampled.2
  let intersectionPoint := sadd3 (ray.origin + smul3 ray.t ray.direction) 0.001
  let lightDirection := normalize3 (lightPosition - intersectionPoint)
  let shadowRay : Ray := { origin := intersectionPoint
                           direction := normalize3 (lightPosition - intersectionPoint) }
  if visibilityOfLightSampleBinary state lightPosition lightColor shadowRay hitInfo then
    computeShading state (-ray.direction) lightDirection lightColor hitInfo
  else 0

/-- The accumulation loop of computeContributionParallelogramLight (each
iteration consumes two sampler entries). -/
def parallelogramLightLoop (state : RenderState) (light : ParallelogramLight) (ray : Ray) (hitInfo : HitInfo) : ℕ → ℕ → Vec3 → Vec3 × ℕ
  | 0, sIdx, acc => (acc, sIdx)
  | n + 1, sIdx, acc =>
      parallelogramLightLoop state light ray hitInfo n (sIdx + 2)
        (acc + parallelogramSampleTerm state light ray hitInfo sIdx)

/-- computeContributionParallelogramLight from light.cpp. -/
def computeContributionParallelogramLight (state : RenderState) (light : ParallelogramLight) (ray : Ray) (hitInfo : HitInfo) (numSamples : ℕ) (sIdx : ℕ) : Vec3 × ℕ :=
  let res := parallelogramLightLoop state light ray hitInfo numSamples sIdx 0
  (if 0 < numSamples then sdiv3 res.1 numSamples else res.1, res.2)

/-- The per-light dispatch loop of computeLightContribution, threading the
sampler index through the area-light integrations. -/
def lightsContribution (state : RenderState) (ray : Ray) (hitInfo : HitInfo) : List Light → ℕ → Vec3 × ℕ
  | [], sIdx => (0, sIdx)
  | Light.point l :: ls, sIdx =>
      let c := computeContributionPointLight state l ray hitInfo
      let rest := lightsContribution state ray hitInfo ls sIdx
      (c + rest.1, rest.2)
  | Light.segment l :: ls, sIdx =>
      let res := computeContributionSegmentLight state l ray hitInfo state.features.numShadowSamples sIdx
      let rest := lightsContribution state ray hitInfo ls res.2
      (res.1 + rest.1, rest.2)
  | Light.parallelogram l :: ls, sIdx =>
      let res := computeContributionParallelogramLight state l ray hitInfo state.features.numShadowSamples sIdx
      let rest := lightsContribution state ray hitInfo ls res.2
      (res.1 + rest.1, rest.2)

/-- computeLightContribution from light.cpp: sum the contributions of all
scene lights in storage order. -/
def computeLightContribution (state : RenderState) (ray : Ray) (hitInfo : HitInfo) (sIdx : ℕ) : Vec3 × ℕ :=
  lightsContribution state ray hitInfo state.scene.lights sIdx

/-! ## Recursive renderer (recursive.cpp) -/

/-- generateReflectionRay from recursive.cpp. -/
def generateReflectionRay (ray : Ray) (hitInfo : HitInfo) : Ray :=
  let incidentDirection := normalize3 ray.direction
  let normal := normalize3 hitInfo.normal
  let reflectedDirection := incidentDirection - smul3 (2 * dot3 incidentDirection normal) normal
  let intersectionPoint := ray.origin + smul3 ray.t ray.direction + smul3 0.001 normal
  { origin := intersectionPoint, direction := reflectedDirection }

/-- generatePassthroughRay from recursive.cpp (its t is set to 1). -/
def generatePassthroughRay (ray : Ray) (hitInfo : HitInfo) : Ray :=
  { origin := sadd3 (ray.origin + smul3 ray.t ray.direction) 0.001
    direction := ray.direction
    t := 1 }

/-- renderRaySpecularComponent from recursive.cpp. The recursive call to
renderRay at rayDepth + 1 is supplied by the caller as renderNext (already
fixed at depth rayDepth + 1); the component adds ks times the recursive color
to the hit color and skips recursion for a degenerate reflection direction. -/
def renderRaySpecularComponent (renderNext : Ray → ℕ → Vec3 × ℕ) (state : RenderState) (ray : Ray) (hitInfo : HitInfo) (hitColor : Vec3) (sIdx : ℕ) : Vec3 × ℕ :=
  if state.features.enableReflections = true then
    let reflectedRay := generateReflectionRay ray hitInfo
    if reflectedRay.direction ≠ (0 : Vec3) then
      let res := renderNext reflectedRay sIdx
      (hitColor + hitInfo.material.ks * res.1, res.2)
    else (hitColor, sIdx)
  else (hitColor, sIdx)

/-- renderRayTransparentComponent from recursive.cpp: alpha-blend the hit
color with the recursive passthrough color by the material transparency. -/
def renderRayTransparentComponent (renderNext : Ray → ℕ → Vec3 × ℕ) (state : RenderState) (ray : Ray) (hitInfo : HitInfo) (hitColor : Vec3) (sIdx : ℕ) : Vec3 × ℕ :=
  if state.features.enableTransparency = true then
    let passthroughRay := generatePassthroughRay ray hitInfo
    if passthroughRay.direction ≠ (0 : Vec3) then
      let res := renderNext passthroughRay sIdx
      (mix3 hitColor res.1 hitInfo.material.transparency, res.2)
    else (hitColor, sIdx)
  else (hitColor, sIdx)

/-- Modelled from the spec: renderRayGlossyComponent lives in extra.cpp, which
is not among the core source files; the specification only fixes that it is
the alternative reflective branch, recursively evaluating renderRay at
rayDepth + 1 along a (perturbed) reflection ray. It is modelled like the
specular component with the perturbation supplied by the render state. -/
def renderRayGlossyComponent (renderNext : Ray → ℕ → Vec3 × ℕ) (state : RenderState) (ray : Ray) (hitInfo : HitInfo) (hitColor : Vec3) (sIdx : ℕ) : Vec3 × ℕ :=
  let glossyRay := state.glossyPerturb (generateReflectionRay ray hitInfo)
  if glossyRay.direction ≠ (0 : Vec3) then
    let res := renderNext glossyRay sIdx
    (hitColor + hitInfo.material.ks * res.1, res.2)
  else (hitColor, sIdx)

/-- renderRay from recursive.cpp: intersect; on a miss sample the environment
map; on a hit take the direct light contribution and, while rayDepth < 6,
add the specular or glossy reflective component and the transparent
component, each recursing at rayDepth + 1. -/
def renderRay (state : RenderState) (ray : Ray) (rayDepth : ℤ) (sIdx : ℕ) : Vec3 × ℕ :=
  match state.intersect ray with
  | none => (state.env ray, sIdx)
  | some (t, hitInfo) =>
      let hitRay : Ray := { ray with t := t }
      let base := computeLightContribution state hitRay hitInfo sIdx
      if h : rayDepth < 6 then
        let isReflective := hitInfo.material.ks ≠ (0 : Vec3)
        let isTransparent := hitInfo.material.transparency ≠ 1
        let afterSpec :=
          if state.features.enableReflections = true ∧ state.features.extra.enableGlossyReflection = false ∧ isReflective then
            renderRaySpecularComponent (fun r s => renderRay state r (rayDepth + 1) s) state hitRay hitInfo base.1 base.2
          else base
        let afterGlossy :=
          if state.features.enableReflections = true ∧ state.features.extra.enableGlossyReflection = true ∧ isReflective then
            renderRayGlossyComponent (fun r s => renderRay state r (rayDepth + 1) s) state hitRay hitInfo afterSpec.1 afterSpec.2
          else afterSpec
        let afterTransparent :=
          if state.features.enableTransparency = true ∧ isTransparent then
            renderRayTransparentComponent (fun r s => renderRay state r (rayDepth + 1) s) state hitRay hitInfo afterGlossy.1 afterGlossy.2
          else afterGlossy
        afterTransparent
      else base
termination_by (6 - rayDepth).toNat
decreasing_by all_goals omega

/-- The non-recursive core of renderRay: environment color on a miss, direct
light contribution on a hit, with no secondary rays. -/
def renderRayNoRec (state : RenderState) (ray : Ray) (sIdx : ℕ) : Vec3 × ℕ :=
  match state.intersect ray with
  | none => (state.env ray, sIdx)
  | some (t, hitInfo) =>
      computeLightContribution state { ray with t := t } hitInfo sIdx

/-- The accumulation loop of renderRays. -/
def renderRaysGo (state : RenderState) (rayDepth : ℤ) : List Ray → ℕ → Vec3 → Vec3 × ℕ
  | [], sIdx, acc => (acc, sIdx)
  | r :: rs, sIdx, acc =>
      let res := renderRay state r rayDepth sIdx
      renderRaysGo state rayDepth rs res.2 (acc + res.1)

/-- renderRays from recursive.cpp: sum renderRay over the batch (threading
the sampler) and divide by the batch size. -/
def renderRays (state : RenderState) (rays : List Ray) (rayDepth : ℤ) (sIdx : ℕ) : Vec3 × ℕ :=
  let res := renderRaysGo state rayDepth rays sIdx 0
  (sdiv3 res.1 (rays.length : ℝ), res.2)

/-- Instrumentation of renderRay: the largest rayDepth value occurring in the
tree of renderRay calls spawned by one call. It mirrors the control flow of
renderRay exactly (which secondary rays fire, and the sampler index each
recursive call starts from, obtained from renderRay itself). -/
def renderRayMaxDepth (state : RenderState) (ray : Ray) (rayDepth : ℤ) (sIdx : ℕ) : ℤ :=
  match state.intersect ray with
  | none => rayDepth
  | some (t, hitInfo) =>
      let hitRay : Ray := { ray with t := t }
      let base := computeLightContribution state hitRay hitInfo sIdx
      if h : rayDepth < 6 then
        let isReflective := hitInfo.material.ks ≠ (0 : Vec3)
        let isTransparent := hitInfo.material.transparency ≠ 1
        let specRay := generateReflectionRay hitRay hitInfo
        let specFires := state.features.enableReflections = true ∧ state.features.extra.enableGlossyReflection = false ∧ isReflective ∧ specRay.direction ≠ (0 : Vec3)
        let dSpec := if specFires then renderRayMaxDepth state specRay (rayDepth + 1) base.2 else rayDepth
        let s2 := if specFires then (renderRay state specRay (rayDepth + 1) base.2).2 else base.2
        let glossyRay := state.glossyPerturb (generateReflectionRay hitRay hitInfo)
        let glossyFires := state.features.enableReflections = true ∧ state.features.extra.enableGlossyReflection = true ∧ isReflective ∧ glossyRay.direction ≠ (0 : Vec3)
        let dGlossy := if glossyFires then renderRayMaxDepth state glossyRay (rayDepth + 1) s2 else rayDepth
        let s3 := if glossyFires then (renderRay state glossyRay (rayDepth + 1) s2).2 else s2
        let passRay := generatePassthroughRay hitRay hitInfo
        let transFires := state.features.enableTransparency = true ∧ isTransparent ∧ passRay.direction ≠ (0 : Vec3)
        let dTrans := if transFires then renderRayMaxDepth state passRay (rayDepth + 1) s3 else rayDepth
        max rayDepth (max dSpec (max dGlossy dTrans))
      else rayDepth
termination_by (6 - rayDepth).toNat
decreasing_by all_goals omega

/-! ## Generic vector lemmas -/

/-- Componentwise characterization of vec3 equality. -/
lemma vec3_eq_iff (a b : Vec3) : a = b ↔ a.1 = b.1 ∧ a.2.1 = b.2.1 ∧ a.2.2 = b.2.2 := by
  obtain ⟨a1, a2, a3⟩ := a
  obtain ⟨b1, b2, b3⟩ := b
  simp [Prod.ext_iff, and_assoc]

/-! ## C4: the Phong model -/

/-- The Phong formula exactly as the specification states it: diffuse
(kd * NdotL) * lightColor * NdotL and specular ks * lightColor *
max(0, dot(R, V))^1, with R = reflect(-L, N) over the normalized normal,
light direction and camera direction. -/
def phongFormula (state : RenderState) (cameraDirection lightDirection lightColor : Vec3) (hitInfo : HitInfo) : Vec3 :=
  let N := normalize3 hitInfo.normal
  let L := normalize3 lightDirection
  let V := normalize3 cameraDirection
  let R := reflect3 (-L) N
  let NdotL := max 0 (dot3 N L)
  smul3 NdotL (smul3 NdotL (sampleMaterialKd state hitInfo) * lightColor) +
    smul3 (max 0 (dot3 R V) ^ (1 : ℕ)) (hitInfo.material.ks * lightColor)

/-- C4: for every input, computePhongModel returns
(kd * NdotL) * lightColor * NdotL + ks * lightColor * max(0, dot(R, V))^1
with R = reflect(-L, N) and N, L, V the normalized normal, light direction
and camera direction: the diffuse term squares the cosine relative to classic
Phong and the specular term applies no shininess exponent. -/
theorem computePhongModel_matches_spec (state : RenderState) (cameraDirection lightDirection lightColor : Vec3) (hitInfo : HitInfo) :
    computePhongModel state cameraDirection lightDirection lightColor hitInfo =
      phongFormula state cameraDirection lightDirection lightColor hitInfo := by
  simp only [computePhongModel, phongFormula, pow_one, max_comm (0 : ℝ)]

/-! ## C7: parallelogram light sampling -/

/-- C7: for a sample (sx, sy) in the unit square, sampleParallelogramLight
returns position v0 + edge01 * sx + edge02 * sy and the bilinear blend of the
four corner colors with weights (1-sx)(1-sy), sx(1-sy), (1-sx)sy, sx*sy on
corners 0, 1, 2, 3; in particular sample (0,0) yields (v0, color0) and
sample (1,1) yields (v0 + edge01 + edge02, color3). -/
theorem sampleParallelogramLight_spec (light : ParallelogramLight) (sx sy : ℝ) :
    (0 ≤ sx → sx < 1 → 0 ≤ sy → sy < 1 →
      sampleParallelogramLight (sx, sy) light =
        (light.v0 + smul3 sx light.edge01 + smul3 sy light.edge02,
         smul3 ((1 - sx) * (1 - sy)) light.color0 + smul3 (sx * (1 - sy)) light.color1 +
           smul3 ((1 - sx) * sy) light.color2 + smul3 (sx * sy) light.color3)) ∧
    sampleParallelogramLight (0, 0) light = (light.v0, light.color0) ∧
    sampleParallelogramLight (1, 1) light = (light.v0 + light.edge01 + light.edge02, light.color3) := by
  refine ⟨fun _ _ _ _ => ?_, ?_, ?_⟩ <;>
    · simp only [sampleParallelogramLight, Prod.ext_iff, vec3_eq_iff, smul3,
        Prod.fst_add, Prod.snd_add]
      repeat' apply And.intro
      all_goals first
        | rfl
        | ring

/-- A concrete parallelogram light used to instantiate C7. -/
def paraLight0 : ParallelogramLight :=
  { v0 := (0, 0, 0), edge01 := (1, 0, 0), edge02 := (0, 1, 0)
    color0 := (1, 0, 0), color1 := (0, 1, 0), color2 := (0, 0, 1), color3 := (1, 1, 0) }

/-- Witness for C7 at the concrete sample (0, 0). -/
theorem sampleParallelogramLight_spec_witness :
    (0 : ℝ) ≤ 0 ∧ (0 : ℝ) < 1 ∧
    sampleParallelogramLight ((0 : ℝ), (0 : ℝ)) paraLight0 =
      (paraLight0.v0 + smul3 0 paraLight0.edge01 + smul3 0 paraLight0.edge02,
       smul3 ((1 - 0) * (1 - 0)) paraLight0.color0 + smul3 (0 * (1 - 0)) paraLight0.color1 +
         smul3 ((1 - 0) * 0) paraLight0.color2 + smul3 (0 * 0) paraLight0.color3) :=
  ⟨le_refl 0, by norm_num,
    (sampleParallelogramLight_spec paraLight0 0 0).1 (le_refl 0) (by norm_num) (le_refl 0) (by norm_num)⟩

/-! ## C2: the visibility dispatch -/

/-- The visibility policy exactly as the specification states it: with
shadows disabled return lightColor with no occlusion test; with shadows
enabled and transparency disabled return lightColor when the shadow ray hits
nothing and zero when it hits anything; with both enabled return lightColor
when the shadow ray hits nothing and otherwise lightColor * kd *
(1 - transparency) using the receiving material. -/
def visibilityOfLightSampleSpec (state : RenderState) (lightPosition lightColor : Vec3) (ray : Ray) (hitInfo : HitInfo) : Vec3 :=
  if state.features.enableShadows = false then lightColor
  else if state.features.enableTransparency = false then
    (match state.intersect (binaryShadowRay ray lightPosition) with
     | none => lightColor
     | some _ => 0)
  else
    (match state.intersect (transparencyShadowRay ray lightPosition) with
     | none => lightColor
     | some _ => smul3 (1 - hitInfo.material.transparency) (lightColor * hitInfo.material.kd))

/-- C2: visibilityOfLightSample agrees with the specification formula in all
three configurations. -/
theorem visibilityOfLightSample_matches_spec (state : RenderState) (lightPosition lightColor : Vec3) (ray : Ray) (hitInfo : HitInfo) :
    visibilityOfLightSample state lightPosition lightColor ray hitInfo =
      visibilityOfLightSampleSpec state lightPosition lightColor ray hitInfo := by
  unfold visibilityOfLightSample visibilityOfLightSampleSpec visibilityOfLightSampleBinary visibilityOfLightSampleTransparency
  cases hs : state.features.enableShadows with
  | false => simp [hs]
  | true =>
      cases ht : state.features.enableTransparency with
      | false =>
          cases hI : state.intersect (binaryShadowRay ray lightPosition) <;> simp [hs, ht, hI]
      | true =>
          cases hI : state.intersect (transparencyShadowRay ray lightPosition) <;> simp [hs, ht, hI]

/-! ## Concrete evaluation helpers -/

lemma sqrt_four : Real.sqrt 4 = 2 := by
  rw [show (4 : ℝ) = 2 ^ 2 by norm_num, Real.sqrt_sq (by norm_num : (0 : ℝ) ≤ 2)]

lemma sqrt_nine_fourths : Real.sqrt (9 / 4) = 3 / 2 := by
  rw [show (9 / 4 : ℝ) = (3 / 2) ^ 2 by norm_num, Real.sqrt_sq (by norm_num : (0 : ℝ) ≤ 3 / 2)]

lemma normalize3_z1 : normalize3 ((0 : ℝ), (0 : ℝ), (1 : ℝ)) = ((0 : ℝ), (0 : ℝ), (1 : ℝ)) := by
  norm_num [normalize3, length3, dot3, sdiv3, Real.sqrt_one]

lemma normalize3_zm1 : normalize3 ((0 : ℝ), (0 : ℝ), (-1 : ℝ)) = ((0 : ℝ), (0 : ℝ), (-1 : ℝ)) := by
  norm_num [normalize3, length3, dot3, sdiv3, Real.sqrt_one]

lemma normalize3_zm2 : normalize3 ((0 : ℝ), (0 : ℝ), (-2 : ℝ)) = ((0 : ℝ), (0 : ℝ), (-1 : ℝ)) := by
  norm_num [normalize3, length3, dot3, sdiv3, sqrt_four]

lemma normalize3_z32 : normalize3 ((0 : ℝ), (0 : ℝ), (3 / 2 : ℝ)) = ((0 : ℝ), (0 : ℝ), (1 : ℝ)) := by
  have h : dot3 ((0 : ℝ), (0 : ℝ), (3 / 2 : ℝ)) ((0 : ℝ), (0 : ℝ), (3 / 2 : ℝ)) = 9 / 4 := by
    norm_num [dot3]
  rw [normalize3, length3, h, sqrt_nine_fourths]
  norm_num [sdiv3]

/-- A feature bundle with every toggle off (Lambertian model selected, one
shadow sample). -/
def offFeatures : Features :=
  { enableShading := false, enableShadows := false, enableReflections := false
    enableTransparency := false, enableTextureMapping := false
    enableBilinearTextureFiltering := false, shadingModel := ShadingModel.lambertian
    numShadowSamples := 1, extra := { enableGlossyReflection := false } }

/-- A render state whose BVH reports no intersection for any ray. -/
def missState : RenderState :=
  { scene := { lights := [] }, features := offFeatures
    intersect := fun _ => none, env := fun _ => 0
    sampler := fun _ => 0, glossyPerturb := fun r => r }

/-! ## C5: the Blinn-Phong specular term -/

/-- A fully reflective white material with the given shininess. -/
def blinnMaterial (s : ℝ) : Material :=
  { kd := (1, 1, 1), ks := (1, 1, 1), shininess := s, transparency := 1 }

/-- A hit with upward normal and the white Blinn-Phong test material. -/
def blinnHit (s : ℝ) : HitInfo :=
  { normal := (0, 0, 1), texCoord := (0, 0), material := blinnMaterial s }

/-- C5 (amended): when dot(N, H) is nonpositive and the shininess is
strictly positive, the Blinn-Phong specular term vanishes and the result is
the diffuse term kd * lightColor * max(0, dot(N, L)) alone. (At shininess
exactly 0 the code computes pow(0, 0) = 1 and the specular term survives.) -/
theorem computeBlinnPhongModel_specular_vanishes (state : RenderState) (cameraDirection lightDirection lightColor : Vec3) (hitInfo : HitInfo)
    (hshin : 0 < hitInfo.material.shininess)
    (hNH : dot3 (normalize3 hitInfo.normal) (normalize3 (normalize3 lightDirection + normalize3 cameraDirection)) ≤ 0) :
    computeBlinnPhongModel state cameraDirection lightDirection lightColor hitInfo =
      smul3 (max 0 (dot3 (normalize3 hitInfo.normal) (normalize3 lightDirection)))
        (sampleMaterialKd state hitInfo * lightColor) := by
  simp only [computeBlinnPhongModel]
  rw [max_eq_left hNH, Real.zero_rpow (ne_of_gt hshin),
    max_comm (dot3 (normalize3 hitInfo.normal) (normalize3 lightDirection)) 0]
  simp only [vec3_eq_iff, smul3, Prod.fst_add, Prod.snd_add]
  refine ⟨by ring, by ring, by ring⟩

/-- Counterexample to C5 as frozen: at shininess 0 (which is ≥ 0) and
dot(N, H) ≤ 0, the Blinn-Phong result differs from the diffuse term alone,
because pow(0, 0) = 1 keeps the full specular contribution. -/
theorem computeBlinnPhongModel_claim_cex :
    dot3 (normalize3 (blinnHit 0).normal)
        (normalize3 (normalize3 ((0 : ℝ), (0 : ℝ), (-1 : ℝ)) + normalize3 ((0 : ℝ), (0 : ℝ), (-1 : ℝ)))) ≤ 0 ∧
    (0 : ℝ) ≤ (blinnHit 0).material.shininess ∧
    computeBlinnPhongModel missState ((0 : ℝ), (0 : ℝ), (-1 : ℝ)) ((0 : ℝ), (0 : ℝ), (-1 : ℝ)) ((1 : ℝ), (1 : ℝ), (1 : ℝ)) (blinnHit 0) ≠
      smul3 (max 0 (dot3 (normalize3 (blinnHit 0).normal) (normalize3 ((0 : ℝ), (0 : ℝ), (-1 : ℝ)))))
        (sampleMaterialKd missState (blinnHit 0) * ((1 : ℝ), (1 : ℝ), (1 : ℝ))) := by
  refine ⟨?_, ?_, ?_⟩
  · norm_num [blinnHit, blinnMaterial, normalize3_z1, normalize3_zm1, normalize3_zm2,
      Prod.mk_add_mk, dot3]
  · norm_num [blinnHit, blinnMaterial]
  · norm_num [computeBlinnPhongModel, blinnHit, blinnMaterial, missState, offFeatures,
      sampleMaterialKd, normalize3_z1, normalize3_zm1, normalize3_zm2, Prod.mk_add_mk,
      Prod.mk_mul_mk, dot3, smul3, Real.rpow_zero, vec3_eq_iff, Prod.fst_add, Prod.snd_add]

/-- Witness for C5 (amended) at shininess 1 with the light and camera behind
the surface. -/
theorem computeBlinnPhongModel_specular_vanishes_witness :
    computeBlinnPhongModel missState ((0 : ℝ), (0 : ℝ), (-1 : ℝ)) ((0 : ℝ), (0 : ℝ), (-1 : ℝ)) ((1 : ℝ), (1 : ℝ), (1 : ℝ)) (blinnHit 1) =
      smul3 (max 0 (dot3 (normalize3 (blinnHit 1).normal) (normalize3 ((0 : ℝ), (0 : ℝ), (-1 : ℝ)))))
        (sampleMaterialKd missState (blinnHit 1) * ((1 : ℝ), (1 : ℝ), (1 : ℝ))) :=
  computeBlinnPhongModel_specular_vanishes missState _ _ _ (blinnHit 1)
    (by norm_num [blinnHit, blinnMaterial])
    (by norm_num [blinnHit, blinnMaterial, normalize3_z1, normalize3_zm1, normalize3_zm2,
      Prod.mk_add_mk, dot3])

/-! ## C3 and C10: the point-light contribution -/

/-- An opaque-shadow test material: white diffuse, no specular, transparency
zero. -/
def occlMaterial : Material :=
  { kd := (1, 1, 1), ks := (0, 0, 0), shininess := 1, transparency := 0 }

/-- The hit used in the occlusion scenarios. -/
def occlHit : HitInfo :=
  { normal := (0, 0, 1), texCoord := (0, 0), material := occlMaterial }

/-- A render state whose BVH reports a hit for every ray (so every shadow ray
is occluded); shadows are disabled in its feature configuration. -/
def occlState : RenderState :=
  { scene := { lights := [] }, features := offFeatures
    intersect := fun _ => some (1, occlHit), env := fun _ => 0
    sampler := fun _ => 0, glossyPerturb := fun r => r }

/-- A concrete point light. -/
def pLight0 : PointLight := { position := (0, 0, 5), color := (1, 1, 1) }

/-- A concrete incident ray with hit distance 1. -/
def pRay0 : Ray := { origin := (0, 0, 0), direction := (0, 0, 1), t := 1 }

/-- The net formula of the specification for the point-light contribution:
shading * (1 - transparency) + attenuatedVisibility, where the shading and
the attenuated-visibility call are the ones computeContributionPointLight
makes for this light. -/
def pointLightNet (state : RenderState) (light : PointLight) (ray : Ray) (hitInfo : HitInfo) : Vec3 :=
  smul3 (1 - hitInfo.material.transparency)
      (computeShading state (-ray.direction)
        (normalize3 (light.position - sadd3 (ray.origin + smul3 ray.t ray.direction) 0.0001))
        light.color hitInfo) +
    visibilityOfLightSampleTransparency state light.position light.color (pointLightShadowRay ray light) hitInfo

/-- C3 (amended): when the binary visibility test passes and the material
transparency is below 1, the point-light contribution equals
shading * (1 - transparency) + attenuatedVisibility; when the test fails the
contribution is the zero vector. -/
theorem computeContributionPointLight_cases (state : RenderState) (light : PointLight) (ray : Ray) (hitInfo : HitInfo) :
    (visibilityOfLightSampleBinary state light.position light.color ray hitInfo = true →
      hitInfo.material.transparency < 1 →
      computeContributionPointLight state light ray hitInfo = pointLightNet state light ray hitInfo) ∧
    (visibilityOfLightSampleBinary state light.position light.color ray hitInfo = false →
      computeContributionPointLight state light ray hitInfo = 0) := by
  constructor
  · intro hv ht
    simp only [computeContributionPointLight, pointLightNet, hv, ht, if_true, if_pos]
  · intro hv
    simp only [computeContributionPointLight, hv]
    simp

/-- Counterexample to C3 as frozen: with an occluded shadow ray and
transparency 0 < 1 the contribution is zero, not the net formula (which
evaluates to (2, 2, 2) here). -/
theorem computeContributionPointLight_net_cex :
    occlHit.material.transparency < 1 ∧
    computeContributionPointLight occlState pLight0 pRay0 occlHit ≠
      pointLightNet occlState pLight0 pRay0 occlHit := by
  constructor
  · norm_num [occlHit, occlMaterial]
  · have hb : visibilityOfLightSampleBinary occlState pLight0.position pLight0.color pRay0 occlHit = false := by
      simp [visibilityOfLightSampleBinary, occlState]
    have hL : computeContributionPointLight occlState pLight0 pRay0 occlHit = 0 := by
      simp only [computeContributionPointLight, hb]
      simp
    have hR : pointLightNet occlState pLight0 pRay0 occlHit = ((2 : ℝ), (2 : ℝ), (2 : ℝ)) := by
      norm_num [pointLightNet, computeShading, occlState, offFeatures, sampleMaterialKd,
        occlHit, occlMaterial, visibilityOfLightSampleTransparency, pLight0, smul3,
        Prod.mk_mul_mk, vec3_eq_iff, Prod.fst_add, Prod.snd_add]
    rw [hL, hR]
    intro hcontra
    rw [vec3_eq_iff] at hcontra
    norm_num at hcontra

/-- Witness for C3 (amended): with an everywhere-occluding BVH the binary
test fails and the contribution is zero. -/
theorem computeContributionPointLight_cases_witness :
    computeContributionPointLight occlState pLight0 pRay0 occlHit = 0 :=
  (computeContributionPointLight_cases occlState pLight0 pRay0 occlHit).2
    (by simp [visibilityOfLightSampleBinary, occlState])

/-- Replace only the shadow-related feature flags of a render state. -/
def setShadowFlags (state : RenderState) (b1 b2 : Bool) : RenderState :=
  { state with features := { state.features with enableShadows := b1, enableTransparency := b2 } }

/-- C10: visibilityOfLightSampleBinary never consults the enableShadows or
enableTransparency flags, and whenever the shadow ray built from the incident
ray hits any scene object the point-light contribution is the zero vector,
regardless of those flags. -/
theorem pointLight_binary_ignores_flags (state : RenderState) (lightPosition lightColor : Vec3) (ray : Ray) (hitInfo : HitInfo) (b1 b2 : Bool) (light : PointLight)
    (hocc : ∃ h, state.intersect (binaryShadowRay ray light.position) = some h) :
    visibilityOfLightSampleBinary (setShadowFlags state b1 b2) lightPosition lightColor ray hitInfo =
      visibilityOfLightSampleBinary state lightPosition lightColor ray hitInfo ∧
    computeContributionPointLight state light ray hitInfo = 0 := by
  constructor
  · rfl
  · obtain ⟨h, hh⟩ := hocc
    have hb : visibilityOfLightSampleBinary state light.position light.color ray hitInfo = false := by
      simp [visibilityOfLightSampleBinary, hh]
    simp only [computeContributionPointLight, hb]
    simp

/-- Witness for C10: the occluding state has shadows disabled, yet the
point-light contribution is zero. -/
theorem pointLight_binary_ignores_flags_witness :
    visibilityOfLightSampleBinary (setShadowFlags occlState true true) ((0 : ℝ), (0 : ℝ), (0 : ℝ)) ((1 : ℝ), (1 : ℝ), (1 : ℝ)) pRay0 occlHit =
      visibilityOfLightSampleBinary occlState ((0 : ℝ), (0 : ℝ), (0 : ℝ)) ((1 : ℝ), (1 : ℝ), (1 : ℝ)) pRay0 occlHit ∧
    computeContributionPointLight occlState pLight0 pRay0 occlHit = 0 :=
  pointLight_binary_ignores_flags occlState _ _ pRay0 occlHit true true pLight0
    ⟨(1, occlHit), rfl⟩

/-! ## C1: the recursion depth bound -/

/-- The call tree of renderRay never reaches a rayDepth beyond max of the
starting depth and 6: every recursive ray is spawned at rayDepth + 1 and only
while rayDepth < 6. -/
theorem renderRayMaxDepth_le (state : RenderState) (ray : Ray) (rayDepth : ℤ) (sIdx : ℕ) :
    renderRayMaxDepth state ray rayDepth sIdx ≤ max rayDepth 6 := by
  unfold renderRayMaxDepth
  split
  · exact le_max_left _ _
  · by_cases hd : rayDepth < 6
    · simp only [dif_pos hd]
      refine max_le (le_max_left _ _) (max_le ?_ (max_le ?_ ?_)) <;> split_ifs <;>
        first
          | exact le_max_left _ _
          | exact le_trans
              (le_trans (renderRayMaxDepth_le state _ (rayDepth + 1) _)
                (max_le (by omega) le_rfl))
              (le_max_right _ _)
    · simp only [dif_neg hd]
      exact le_max_left _ _
termination_by (6 - rayDepth).toNat
decreasing_by all_goals omega

/-- C1: a renderRay call at rayDepth ≥ 6 spawns no recursive reflection,
glossy or transparency rays (it equals the non-recursive core), and the
maximal depth occurring in any chain of recursive renderRay calls is bounded
by max(rayDepth, 6), so the recursion terminates for every scene. -/
theorem renderRay_depth_bounded (state : RenderState) (ray : Ray) (rayDepth : ℤ) (sIdx : ℕ) :
    (6 ≤ rayDepth → renderRay state ray rayDepth sIdx = renderRayNoRec state ray sIdx) ∧
    renderRayMaxDepth state ray rayDepth sIdx ≤ max rayDepth 6 := by
  refine ⟨fun h6 => ?_, renderRayMaxDepth_le state ray rayDepth sIdx⟩
  unfold renderRay renderRayNoRec
  cases hI : state.intersect ray with
  | none => rfl
  | some p =>
      obtain ⟨t, hitInfo⟩ := p
      dsimp only
      rw [dif_neg (by omega : ¬ rayDepth < 6)]

/-- A concrete camera ray for the C1 witness. -/
def ray0 : Ray := { origin := (0, 0, 0), direction := (0, 0, 1) }

/-- Witness for C1 at depth 7 in a trivial scene. -/
theorem renderRay_depth_bounded_witness :
    renderRay missState ray0 7 0 = renderRayNoRec missState ray0 0 ∧
    renderRayMaxDepth missState ray0 7 0 ≤ max 7 6 :=
  ⟨(renderRay_depth_bounded missState ray0 7 0).1 (by decide),
   (renderRay_depth_bounded missState ray0 7 0).2⟩

/-! ## C6: the gradient sampler -/

/-- Linear interpolation at parameter 1 yields the second endpoint. -/
lemma mix3_one (x y : Vec3) : mix3 x y 1 = y := by
  simp only [mix3, smul3, vec3_eq_iff, Prod.fst_add, Prod.snd_add, Prod.fst_sub, Prod.snd_sub]
  refine ⟨by ring, by ring, by ring⟩

/-- Strictly sorted t values are strictly monotone in the index. -/
lemma gradient_t_mono {l : List GradientComponent} (hs : l.Pairwise (fun a b => a.t < b.t))
    {i j : ℕ} (hij : i < j) (hj : j < l.length) :
    (l.get ⟨i, lt_trans hij hj⟩).t < (l.get ⟨j, hj⟩).t :=
  List.pairwise_iff_get.mp hs ⟨i, lt_trans hij hj⟩ ⟨j, hj⟩ hij

/-- Strictly sorted t values are monotone in the index. -/
lemma gradient_t_mono_le {l : List GradientComponent} (hs : l.Pairwise (fun a b => a.t < b.t))
    {i j : ℕ} (hij : i ≤ j) (hj : j < l.length) :
    (l.get ⟨i, lt_of_le_of_lt hij hj⟩).t ≤ (l.get ⟨j, hj⟩).t := by
  rcases Nat.eq_or_lt_of_le hij with h | h
  · subst h
    exact le_rfl
  · exact (gradient_t_mono hs h hj).le

/-- getLast as an indexed access. -/
lemma getLast_get (l : List GradientComponent) (h : l ≠ []) (hl : l.length - 1 < l.length) :
    l.getLast h = l.get ⟨l.length - 1, hl⟩ := by
  simp [List.getLast_eq_getElem, List.get_eq_getElem]

/-- One-step unfolding of the gradient scan on a list with two heads. -/
lemma gradientScan_cons2 (a b : GradientComponent) (rest : List GradientComponent) (ti : ℝ) :
    gradientScan (a :: b :: rest) ti =
      if a.t ≤ ti ∧ ti ≤ b.t then mix3 a.color b.color ((ti - a.t) / (b.t - a.t))
      else gradientScan (b :: rest) ti := rfl

/-- One-step unfolding of LinearGradient.sample on a nonempty component
list. -/
lemma sample_cons (c0 : GradientComponent) (cs : List GradientComponent) (ti : ℝ) :
    LinearGradient.sample ⟨c0 :: cs⟩ ti =
      if ti ≤ c0.t then c0.color
      else if ((c0 :: cs).getLast (List.cons_ne_nil c0 cs)).t ≤ ti then
        ((c0 :: cs).getLast (List.cons_ne_nil c0 cs)).color
      else gradientScan (c0 :: cs) ti := rfl

/-- The scan returns the interpolation of the bracketing pair: if the t value
at index i lies strictly below ti and ti is at most the t value at index
i + 1, the scan stops exactly at that pair. -/
lemma gradientScan_bracket (l : List GradientComponent) :
    ∀ (ti : ℝ) (i : ℕ) (hi : i + 1 < l.length),
      l.Pairwise (fun a b => a.t < b.t) →
      (l.get ⟨i, by omega⟩).t < ti → ti ≤ (l.get ⟨i + 1, hi⟩).t →
      gradientScan l ti =
        mix3 (l.get ⟨i, by omega⟩).color (l.get ⟨i + 1, hi⟩).color
          ((ti - (l.get ⟨i, by omega⟩).t) /
            ((l.get ⟨i + 1, hi⟩).t - (l.get ⟨i, by omega⟩).t)) := by
  induction l with
  | nil =>
      intro ti i hi
      simp at hi
  | cons a l ih =>
      intro ti i hi hp hlt hle
      cases l with
      | nil => simp at hi
      | cons b rest =>
          cases i with
          | zero =>
              rw [gradientScan_cons2, if_pos ⟨le_of_lt hlt, hle⟩]
              rfl
          | succ i =>
              rw [gradientScan_cons2, if_neg]
              · exact ih ti i (by simpa using hi) (List.pairwise_cons.mp hp).2 hlt hle
              · rintro ⟨-, h2⟩
                have hb_le : b.t ≤ ((b :: rest).get ⟨i, by simpa using Nat.lt_of_succ_lt (by simpa using hi)⟩).t := by
                  have := gradient_t_mono_le (List.pairwise_cons.mp hp).2 (Nat.zero_le i)
                    (by simpa using Nat.lt_of_succ_lt (by simpa using hi))
                  simpa using this
                have hb_lt : b.t < ti := lt_of_le_of_lt hb_le hlt
                linarith

/-- C6: for a gradient with at least two components strictly sorted by t,
sample clamps to the first color at or below the smallest t, clamps to the
last color at or above the largest t, returns the exact color of a component
whose t equals ti, and otherwise interpolates between the bracketing pair
with alpha = (ti - ta) / (tb - ta). -/
theorem linearGradient_sample_spec (c0 : GradientComponent) (cs : List GradientComponent)
    (hne : cs ≠ []) (hs : (c0 :: cs).Pairwise (fun a b => a.t < b.t)) (ti : ℝ) :
    (ti ≤ c0.t → LinearGradient.sample ⟨c0 :: cs⟩ ti = c0.color) ∧
    (((c0 :: cs).getLast (List.cons_ne_nil c0 cs)).t ≤ ti →
      LinearGradient.sample ⟨c0 :: cs⟩ ti = ((c0 :: cs).getLast (List.cons_ne_nil c0 cs)).color) ∧
    (∀ c ∈ c0 :: cs, c.t = ti → LinearGradient.sample ⟨c0 :: cs⟩ ti = c.color) ∧
    (∀ (i : ℕ) (hi : i + 1 < (c0 :: cs).length),
      ((c0 :: cs).get ⟨i, by omega⟩).t < ti → ti < ((c0 :: cs).get ⟨i + 1, hi⟩).t →
      LinearGradient.sample ⟨c0 :: cs⟩ ti =
        mix3 ((c0 :: cs).get ⟨i, by omega⟩).color ((c0 :: cs).get ⟨i + 1, hi⟩).color
          ((ti - ((c0 :: cs).get ⟨i, by omega⟩).t) /
            (((c0 :: cs).get ⟨i + 1, hi⟩).t - ((c0 :: cs).get ⟨i, by omega⟩).t))) := by
  have hcs : 0 < cs.length := List.length_pos.mpr hne
  have hlast_lt : (c0 :: cs).length - 1 < (c0 :: cs).length := by simp
  have hc0_lt_last : c0.t < ((c0 :: cs).getLast (List.cons_ne_nil c0 cs)).t := by
    rw [getLast_get _ _ hlast_lt]
    have := gradient_t_mono hs (show 0 < (c0 :: cs).length - 1 by simp [hcs]) hlast_lt
    simpa using this
  have partA : ti ≤ c0.t → LinearGradient.sample ⟨c0 :: cs⟩ ti = c0.color := by
    intro h
    rw [sample_cons, if_pos h]
  have partB : ((c0 :: cs).getLast (List.cons_ne_nil c0 cs)).t ≤ ti →
      LinearGradient.sample ⟨c0 :: cs⟩ ti = ((c0 :: cs).getLast (List.cons_ne_nil c0 cs)).color := by
    intro h
    by_cases h1 : ti ≤ c0.t
    · linarith
    · rw [sample_cons, if_neg h1, if_pos h]
  have partD : ∀ (i : ℕ) (hi : i + 1 < (c0 :: cs).length),
      ((c0 :: cs).get ⟨i, by omega⟩).t < ti → ti < ((c0 :: cs).get ⟨i + 1, hi⟩).t →
      LinearGradient.sample ⟨c0 :: cs⟩ ti =
        mix3 ((c0 :: cs).get ⟨i, by omega⟩).color ((c0 :: cs).get ⟨i + 1, hi⟩).color
          ((ti - ((c0 :: cs).get ⟨i, by omega⟩).t) /
            (((c0 :: cs).get ⟨i + 1, hi⟩).t - ((c0 :: cs).get ⟨i, by omega⟩).t)) := by
    intro i hi hlt hlt'
    have h1 : ¬ ti ≤ c0.t := by
      have hle0 : c0.t ≤ ((c0 :: cs).get ⟨i, by omega⟩).t := by
        have := gradient_t_mono_le hs (Nat.zero_le i) (by omega)
        simpa using this
      linarith
    have h2 : ¬ ((c0 :: cs).getLast (List.cons_ne_nil c0 cs)).t ≤ ti := by
      have hle2 : ((c0 :: cs).get ⟨i + 1, hi⟩).t ≤ ((c0 :: cs).getLast (List.cons_ne_nil c0 cs)).t := by
        rw [getLast_get _ _ hlast_lt]
        exact gradient_t_mono_le hs (by omega) hlast_lt
      linarith
    rw [sample_cons, if_neg h1, if_neg h2]
    exact gradientScan_bracket (c0 :: cs) ti i hi hs hlt hlt'.le
  refine ⟨partA, partB, ?_, partD⟩
  intro c hc hct
  obtain ⟨k, hk, hgetk⟩ := List.mem_iff_getElem.mp hc
  have hgk : (c0 :: cs).get ⟨k, hk⟩ = c := by
    simpa [List.get_eq_getElem] using hgetk
  cases k with
  | zero =>
      have hc0 : c = c0 := by simpa using hgk.symm
      subst hc0
      exact partA (le_of_eq hct.symm)
  | succ j =>
      by_cases hlastIdx : j + 1 = (c0 :: cs).length - 1
      · have hfin : (⟨(c0 :: cs).length - 1, hlast_lt⟩ : Fin (c0 :: cs).length) = ⟨j + 1, hk⟩ := by
          apply Fin.ext
          simp [hlastIdx]
        have hgl : (c0 :: cs).getLast (List.cons_ne_nil c0 cs) = c := by
          rw [getLast_get _ _ hlast_lt, hfin]
          exact hgk
        rw [partB (le_of_eq (by rw [hgl, hct]))]
        rw [hgl]
      · have hjlt : ((c0 :: cs).get ⟨j, by omega⟩).t < ti := by
          have := gradient_t_mono hs (Nat.lt_succ_self j) hk
          rw [hgk, hct] at this
          exact this
        have hte : ((c0 :: cs).get ⟨j + 1, hk⟩).t = ti := by rw [hgk, hct]
        have h1 : ¬ ti ≤ c0.t := by
          have hle0 : c0.t ≤ ((c0 :: cs).get ⟨j, by omega⟩).t := by
            have := gradient_t_mono_le hs (Nat.zero_le j) (by omega)
            simpa using this
          linarith
        have h2 : ¬ ((c0 :: cs).getLast (List.cons_ne_nil c0 cs)).t ≤ ti := by
          have hj1lt : j + 1 < (c0 :: cs).length - 1 := by omega
          have hstep : ((c0 :: cs).get ⟨j + 1, hk⟩).t <
              ((c0 :: cs).get ⟨(c0 :: cs).length - 1, hlast_lt⟩).t :=
            gradient_t_mono hs hj1lt hlast_lt
          rw [getLast_get _ _ hlast_lt]
          linarith [hte, hstep]
        rw [sample_cons, if_neg h1, if_neg h2]
        rw [gradientScan_bracket (c0 :: cs) ti j hk hs hjlt (le_of_eq hte.symm)]
        have hne2 : ((c0 :: cs).get ⟨j + 1, hk⟩).t - ((c0 :: cs).get ⟨j, by omega⟩).t ≠ 0 :=
          sub_ne_zero.mpr (ne_of_gt (gradient_t_mono hs (Nat.lt_succ_self j) hk))
        rw [show ti = ((c0 :: cs).get ⟨j + 1, hk⟩).t from hte.symm, div_self hne2, mix3_one, hgk]

/-- First component of the witness gradient. -/
def gradA : GradientComponent := { t := 0, color := (1, 0, 0) }

/-- Second component of the witness gradient. -/
def gradB : GradientComponent := { t := 1, color := (0, 1, 0) }

/-- Witness for C6 at the left clamp of a two-component gradient. -/
theorem linearGradient_sample_spec_witness :
    LinearGradient.sample ⟨[gradA, gradB]⟩ 0 = gradA.color :=
  (linearGradient_sample_spec gradA [gradB] (by simp)
      (by norm_num [List.pairwise_cons, gradA, gradB]) 0).1
    (by norm_num [gradA])

/-! ## C9: area lights integrate numSamples fresh draws -/

/-- Closed form of the segment-light loop: it adds one term per remaining
sample, consuming one sampler draw each, and advances the draw index by the
number of samples. -/
lemma segmentLightLoop_spec (state : RenderState) (light : SegmentLight) (ray : Ray) (hitInfo : HitInfo) :
    ∀ (n sIdx : ℕ) (acc : Vec3),
      segmentLightLoop state light ray hitInfo n sIdx acc =
        (acc + ∑ i ∈ Finset.range n, segmentSampleTerm state light ray hitInfo (sIdx + i), sIdx + n) := by
  intro n
  induction n with
  | zero =>
      intro sIdx acc
      simp [segmentLightLoop]
  | succ n ihn =>
      intro sIdx acc
      rw [segmentLightLoop, ihn (sIdx + 1) (acc + segmentSampleTerm state light ray hitInfo sIdx)]
      have hidx : ∀ i, sIdx + 1 + i = sIdx + (i + 1) := fun i => by omega
      simp only [Prod.mk.injEq]
      constructor
      · rw [Finset.sum_range_succ']
        simp only [hidx, Nat.add_zero]
        abel
      · omega

/-- Closed form of the parallelogram-light loop: one term per remaining
sample, two sampler draws each. -/
lemma parallelogramLightLoop_spec (state : RenderState) (light : ParallelogramLight) (ray : Ray) (hitInfo : HitInfo) :
    ∀ (n sIdx : ℕ) (acc : Vec3),
      parallelogramLightLoop state light ray hitInfo n sIdx acc =
        (acc + ∑ i ∈ Finset.range n, parallelogramSampleTerm state light ray hitInfo (sIdx + 2 * i), sIdx + 2 * n) := by
  intro n
  induction n with
  | zero =>
      intro sIdx acc
      simp [parallelogramLightLoop]
  | succ n ihn =>
      intro sIdx acc
      rw [parallelogramLightLoop, ihn (sIdx + 2) (acc + parallelogramSampleTerm state light ray hitInfo sIdx)]
      have hidx : ∀ i, sIdx + 2 + 2 * i = sIdx + 2 * (i + 1) := fun i => by omega
      simp only [Prod.mk.injEq]
      constructor
      · rw [Finset.sum_range_succ']
        simp only [hidx, Nat.mul_zero, Nat.add_zero]
        abel
      · omega

/-- C9: segment and parallelogram contributions are the accumulation of
numSamples independently drawn light samples (one 1d draw, or one 2d draw
consuming two stream entries, per sample) normalized by numSamples; at
numSamples = 0 the contribution is exactly the zero vector, no error is
raised (the function is total) and the sampler index is untouched. -/
theorem areaLights_monte_carlo (state : RenderState) (slight : SegmentLight) (plight : ParallelogramLight) (ray : Ray) (hitInfo : HitInfo) (sIdx : ℕ) :
    computeContributionSegmentLight state slight ray hitInfo 0 sIdx = (0, sIdx) ∧
    (∀ n : ℕ, (computeContributionSegmentLight state slight ray hitInfo n sIdx).2 = sIdx + n) ∧
    (∀ n : ℕ, 0 < n →
      (computeContributionSegmentLight state slight ray hitInfo n sIdx).1 =
        sdiv3 (∑ i ∈ Finset.range n, segmentSampleTerm state slight ray hitInfo (sIdx + i)) n) ∧
    computeContributionParallelogramLight state plight ray hitInfo 0 sIdx = (0, sIdx) ∧
    (∀ n : ℕ, (computeContributionParallelogramLight state plight ray hitInfo n sIdx).2 = sIdx + 2 * n) ∧
    (∀ n : ℕ, 0 < n →
      (computeContributionParallelogramLight state plight ray hitInfo n sIdx).1 =
        sdiv3 (∑ i ∈ Finset.range n, parallelogramSampleTerm state plight ray hitInfo (sIdx + 2 * i)) n) := by
  refine ⟨?_, ?_, ?_, ?_, ?_, ?_⟩
  · simp [computeContributionSegmentLight, segmentLightLoop]
  · intro n
    simp [computeContributionSegmentLight, segmentLightLoop_spec state slight ray hitInfo n sIdx 0]
  · intro n hn
    simp [computeContributionSegmentLight, segmentLightLoop_spec state slight ray hitInfo n sIdx 0, hn]
  · simp [computeContributionParallelogramLight, parallelogramLightLoop]
  · intro n
    simp [computeContributionParallelogramLight, parallelogramLightLoop_spec state plight ray hitInfo n sIdx 0]
  · intro n hn
    simp [computeContributionParallelogramLight, parallelogramLightLoop_spec state plight ray hitInfo n sIdx 0, hn]

/-- A concrete segment light on the z axis. -/
def segLight0 : SegmentLight :=
  { endpoint0 := (0, 0, 2), endpoint1 := (0, 0, 3), color0 := (0, 0, 0), color1 := (1, 1, 1) }

/-- Witness for C9 at one sample. -/
theorem areaLights_monte_carlo_witness :
    (computeContributionSegmentLight missState segLight0 ray0 occlHit 1 0).1 =
      sdiv3 (∑ i ∈ Finset.range 1, segmentSampleTerm missState segLight0 ray0 occlHit (0 + i)) ((1 : ℕ) : ℝ) ∧
    (computeContributionParallelogramLight missState paraLight0 ray0 occlHit 1 0).1 =
      sdiv3 (∑ i ∈ Finset.range 1, parallelogramSampleTerm missState paraLight0 ray0 occlHit (0 + 2 * i)) ((1 : ℕ) : ℝ) :=
  ⟨(areaLights_monte_carlo missState segLight0 paraLight0 ray0 occlHit 0).2.2.1 1 (by decide),
   (areaLights_monte_carlo missState segLight0 paraLight0 ray0 occlHit 0).2.2.2.2.2 1 (by decide)⟩

/-! ## C8: renderRays as the batch mean -/

/-- The list of colors the renderRays loop produces (in order, threading the
sampler index), with the final draw index. -/
def renderRayColors (state : RenderState) (rayDepth : ℤ) : List Ray → ℕ → List Vec3 × ℕ
  | [], sIdx => ([], sIdx)
  | r :: rs, sIdx =>
      let res := renderRay state r rayDepth sIdx
      let rest := renderRayColors state rayDepth rs res.2
      (res.1 :: rest.1, rest.2)

/-- The renderRays accumulation loop computes the sum of the threaded
per-ray colors. -/
lemma renderRaysGo_spec (state : RenderState) (rayDepth : ℤ) :
    ∀ (rs : List Ray) (sIdx : ℕ) (acc : Vec3),
      renderRaysGo state rayDepth rs sIdx acc =
        (acc + (renderRayColors state rayDepth rs sIdx).1.sum,
         (renderRayColors state rayDepth rs sIdx).2) := by
  intro rs
  induction rs with
  | nil =>
      intro sIdx acc
      simp [renderRaysGo, renderRayColors]
  | cons r rs ih =>
      intro sIdx acc
      simp only [renderRaysGo, renderRayColors]
      rw [ih (renderRay state r rayDepth sIdx).2 (acc + (renderRay state r rayDepth sIdx).1)]
      simp only [List.sum_cons, Prod.mk.injEq]
      refine ⟨by abel, by trivial⟩

/-- On a batch of identical rays none of which consumes a sampler draw, the
threaded color list is constant. -/
lemma renderRayColors_replicate (state : RenderState) (rayDepth : ℤ) (ray : Ray) (sIdx : ℕ)
    (hfix : (renderRay state ray rayDepth sIdx).2 = sIdx) :
    ∀ N : ℕ, renderRayColors state rayDepth (List.replicate N ray) sIdx =
      (List.replicate N (renderRay state ray rayDepth sIdx).1, sIdx) := by
  intro N
  induction N with
  | zero => simp [renderRayColors]
  | succ N ih =>
      simp only [List.replicate_succ, renderRayColors]
      rw [hfix, ih]

/-- The sum of N copies of a vector, componentwise. -/
lemma sum_replicate_vec3 (N : ℕ) (c : Vec3) :
    (List.replicate N c).sum = ((N : ℝ) * c.1, (N : ℝ) * c.2.1, (N : ℝ) * c.2.2) := by
  induction N with
  | zero => simp [vec3_eq_iff]
  | succ N ih =>
      simp only [List.replicate_succ, List.sum_cons, ih, vec3_eq_iff,
        Prod.fst_add, Prod.snd_add]
      refine ⟨by push_cast; ring, by push_cast; ring, by push_cast; ring⟩

/-- C8 (amended): renderRays returns the arithmetic mean of the (sampler
threaded) renderRay colors over the batch; and for N ≥ 1 identical rays it
returns exactly the color of a single renderRay call with the same render
state whenever that call leaves the sampler index unchanged. -/
theorem renderRays_mean (state : RenderState) (rays : List Ray) (rayDepth : ℤ) (sIdx : ℕ) :
    renderRays state rays rayDepth sIdx =
      (sdiv3 (renderRayColors state rayDepth rays sIdx).1.sum ((rays.length : ℕ) : ℝ),
       (renderRayColors state rayDepth rays sIdx).2) ∧
    (∀ (ray : Ray) (N : ℕ), 1 ≤ N → (renderRay state ray rayDepth sIdx).2 = sIdx →
      renderRays state (List.replicate N ray) rayDepth sIdx =
        ((renderRay state ray rayDepth sIdx).1, sIdx)) := by
  constructor
  · simp only [renderRays, renderRaysGo_spec state rayDepth rays sIdx 0, zero_add]
  · intro ray N hN hfix
    simp only [renderRays, renderRaysGo_spec state rayDepth _ sIdx 0, zero_add,
      renderRayColors_replicate state rayDepth ray sIdx hfix N]
    have hNne : ((N : ℕ) : ℝ) ≠ 0 := Nat.cast_ne_zero.mpr (by omega)
    rw [Prod.ext_iff]
    constructor
    · rw [sum_replicate_vec3, List.length_replicate]
      simp only [sdiv3, vec3_eq_iff]
      exact ⟨mul_div_cancel_left₀ _ hNne, mul_div_cancel_left₀ _ hNne, mul_div_cancel_left₀ _ hNne⟩
    · rfl

/-- renderRay collapses to the non-recursive core whenever both the
reflection and the transparency features are off. -/
lemma renderRay_noFlags (state : RenderState)
    (hrefl : state.features.enableReflections = false)
    (htrans : state.features.enableTransparency = false)
    (ray : Ray) (rayDepth : ℤ) (sIdx : ℕ) :
    renderRay state ray rayDepth sIdx = renderRayNoRec state ray sIdx := by
  unfold renderRay renderRayNoRec
  cases hI : state.intersect ray with
  | none => rfl
  | some p =>
      obtain ⟨t, hitInfo⟩ := p
      dsimp only
      by_cases hd : rayDepth < 6
      · rw [dif_pos hd]
        simp [hrefl, htrans]
      · rw [dif_neg hd]

/-- Witness for C8 (amended): two identical rays in the trivial scene (no
sampler draws) average to the single-ray color. -/
theorem renderRays_mean_witness :
    renderRays missState (List.replicate 2 ray0) 0 0 =
      ((renderRay missState ray0 0 0).1, 0) :=
  (renderRays_mean missState (List.replicate 2 ray0) 0 0).2 ray0 2 (by norm_num)
    (by rw [renderRay_noFlags missState rfl rfl ray0 0 0]; rfl)

/-- The hit material of the C8 counterexample scene: fully opaque, white
diffuse, no specular. -/
def c8Material : Material :=
  { kd := (1, 1, 1), ks := (0, 0, 0), shininess := 1, transparency := 1 }

/-- The hit of the C8 counterexample scene. -/
def c8Hit : HitInfo :=
  { normal := (0, 0, 1), texCoord := (0, 0), material := c8Material }

/-- The C8 counterexample scene: one segment light on the z axis, a BVH that
intersects exactly the rays leaving the origin (so camera rays hit and shadow
rays miss), and a sampler stream whose first two draws differ. -/
def c8State : RenderState :=
  { scene := { lights := [Light.segment segLight0] }, features := offFeatures
    intersect := fun r => if r.origin = ((0 : ℝ), (0 : ℝ), (0 : ℝ)) then some (1, c8Hit) else none
    env := fun _ => 0
    sampler := fun n => if n = 0 then 0 else 1 / 2
    glossyPerturb := fun r => r }

/-- Draw 0 of the segment integration contributes zero (the sampled light
color is the black endpoint). -/
lemma c8_term0 : segmentSampleTerm c8State segLight0 pRay0 c8Hit 0 = ((0 : ℝ), (0 : ℝ), (0 : ℝ)) := by
  unfold segmentSampleTerm
  norm_num [c8State, segLight0, pRay0, c8Hit, c8Material, offFeatures,
    sampleSegmentLight, mix3, smul3, sadd3, dot3, visibilityOfLightSampleBinary,
    binaryShadowRay, computeShading, sampleMaterialKd, normalize3_z1,
    Prod.mk_add_mk, Prod.mk_sub_mk, Prod.mk_mul_mk, vec3_eq_iff]

/-- Draw 1 of the segment integration contributes the half-bright sampled
color. -/
lemma c8_term1 : segmentSampleTerm c8State segLight0 pRay0 c8Hit 1 = ((1 / 2 : ℝ), (1 / 2 : ℝ), (1 / 2 : ℝ)) := by
  unfold segmentSampleTerm
  norm_num [c8State, segLight0, pRay0, c8Hit, c8Material, offFeatures,
    sampleSegmentLight, mix3, smul3, sadd3, dot3, visibilityOfLightSampleBinary,
    binaryShadowRay, computeShading, sampleMaterialKd, normalize3_z32,
    Prod.mk_add_mk, Prod.mk_sub_mk, Prod.mk_mul_mk, vec3_eq_iff]

/-- The direct light at the c8 hit from sampler index 0. -/
lemma c8_light0 : computeLightContribution c8State pRay0 c8Hit 0 = (((0 : ℝ), (0 : ℝ), (0 : ℝ)), 1) := by
  have hl : c8State.scene.lights = [Light.segment segLight0] := rfl
  have hn : c8State.features.numShadowSamples = 1 := rfl
  norm_num [computeLightContribution, lightsContribution, hl, hn,
    computeContributionSegmentLight, segmentLightLoop, c8_term0, sdiv3, vec3_eq_iff,
    Prod.ext_iff, Prod.fst_add, Prod.snd_add]

/-- The direct light at the c8 hit from sampler index 1. -/
lemma c8_light1 : computeLightContribution c8State pRay0 c8Hit 1 = (((1 / 2 : ℝ), (1 / 2 : ℝ), (1 / 2 : ℝ)), 2) := by
  have hl : c8State.scene.lights = [Light.segment segLight0] := rfl
  have hn : c8State.features.numShadowSamples = 1 := rfl
  norm_num [computeLightContribution, lightsContribution, hl, hn,
    computeContributionSegmentLight, segmentLightLoop, c8_term1, sdiv3, vec3_eq_iff,
    Prod.ext_iff, Prod.fst_add, Prod.snd_add]

/-- renderRay in the c8 scene starting at sampler index 0. -/
lemma c8_render0 : renderRay c8State ray0 0 0 = (((0 : ℝ), (0 : ℝ), (0 : ℝ)), 1) := by
  rw [renderRay_noFlags c8State rfl rfl ray0 0 0]
  have hI : c8State.intersect ray0 = some (1, c8Hit) := by
    simp [c8State, ray0]
  unfold renderRayNoRec
  rw [hI]
  exact c8_light0

/-- renderRay in the c8 scene starting at sampler index 1. -/
lemma c8_render1 : renderRay c8State ray0 0 1 = (((1 / 2 : ℝ), (1 / 2 : ℝ), (1 / 2 : ℝ)), 2) := by
  rw [renderRay_noFlags c8State rfl rfl ray0 0 1]
  have hI : c8State.intersect ray0 = some (1, c8Hit) := by
    simp [c8State, ray0]
  unfold renderRayNoRec
  rw [hI]
  exact c8_light1

/-- Counterexample to C8 as frozen: in the c8 scene, rendering the same ray
twice consumes different sampler draws, so the batch average over two
identical rays differs from the single renderRay color taken from the same
render state. -/
theorem renderRays_identical_rays_cex :
    (renderRays c8State (List.replicate 2 ray0) 0 0).1 ≠ (renderRay c8State ray0 0 0).1 := by
  have hrr : renderRays c8State (List.replicate 2 ray0) 0 0 = (((1 / 4 : ℝ), (1 / 4 : ℝ), (1 / 4 : ℝ)), 2) := by
    norm_num [renderRays, renderRaysGo, c8_render0, c8_render1, sdiv3, vec3_eq_iff,
      Prod.ext_iff, Prod.fst_add, Prod.snd_add, List.replicate]
  rw [hrr, c8_render0]
  simp only [vec3_eq_iff]
  norm_num

end Tracer
